import Mathlib

/-!
Shallow embedding of the journey trip-planning HTTP handlers (Go package
`api`, the single handler file) together with a storage-gateway model.
Handlers are pure functions of the request inputs, the parse/decode/validate
outcomes, and a store state; each returns the response, the resulting store
state and the ordered list of storage-gateway calls it performed.
-/

namespace Journey

/-- Calendar timestamp standing in for Go `time.Time` as the handlers use it
(wall-clock fields only); two timestamps are equal exactly when all fields
agree, which matches Go map-key equality on the stored instant. -/
structure DateTime where
  year : Nat
  month : Nat
  day : Nat
  hour : Nat
  minute : Nat
  deriving DecidableEq, Repr

/-- Embeds `pgstore.Trip` as the handlers read and write it: identifier,
destination, owner name/email, start and end timestamps, confirmation flag.
Identifiers are Nat stand-ins for 128-bit UUID values; 0 is the zero UUID. -/
structure Trip where
  id : Nat
  destination : String
  ownerName : String
  ownerEmail : String
  startsAt : DateTime
  endsAt : DateTime
  isConfirmed : Bool
  deriving DecidableEq, Repr

/-- Embeds `pgstore.Participant`: identifier, owning trip, email, optional
name, confirmation flag. -/
structure Participant where
  id : Nat
  tripId : Nat
  email : String
  name : Option String
  isConfirmed : Bool
  deriving DecidableEq, Repr

/-- Embeds `pgstore.Activity`: identifier, owning trip, title, occurs-at. -/
structure Activity where
  id : Nat
  tripId : Nat
  title : String
  occursAt : DateTime
  deriving DecidableEq, Repr

/-- Embeds `pgstore.Link`: identifier, owning trip, title, URL. -/
structure Link where
  id : Nat
  tripId : Nat
  title : String
  url : String
  deriving DecidableEq, Repr

/-- Embeds `pgstore.UpdateTripParams` (fields in source order). -/
structure UpdateTripParams where
  destination : String
  endsAt : DateTime
  startsAt : DateTime
  isConfirmed : Bool
  id : Nat
  deriving DecidableEq, Repr

/-- Embeds `pgstore.CreateActivityParams`. -/
structure CreateActivityParams where
  tripId : Nat
  title : String
  occursAt : DateTime
  deriving DecidableEq, Repr

/-- Embeds `pgstore.CreateTripLinkParams`. -/
structure CreateTripLinkParams where
  tripId : Nat
  title : String
  url : String
  deriving DecidableEq, Repr

/-- Embeds `spec.CreateTripRequest` (body of POST /trips). -/
structure CreateTripRequest where
  destination : String
  startsAt : DateTime
  endsAt : DateTime
  ownerName : String
  ownerEmail : String
  emailsToInvite : List String
  deriving DecidableEq, Repr

/-- Embeds `spec.PutTripsTripIDJSONRequestBody` (body of PUT /trips/id). -/
structure PutTripsTripIDJSONRequestBody where
  destination : String
  startsAt : DateTime
  endsAt : DateTime
  deriving DecidableEq, Repr

/-- Embeds `spec.CreateActivityRequest`. -/
structure CreateActivityRequest where
  title : String
  occursAt : DateTime
  deriving DecidableEq, Repr

/-- Embeds `spec.CreateLinkRequest`. Its Go zero value (used when JSON
decoding fails, since decoding leaves the struct zeroed) has empty fields. -/
structure CreateLinkRequest where
  title : String
  url : String
  deriving DecidableEq, Repr

/-- Embeds `spec.GetTripDetailsResponseTripObj` (fields in source order of
the literal at the end of GetTripsTripID). -/
structure GetTripDetailsResponseTripObj where
  destination : String
  endsAt : DateTime
  id : Nat
  isConfirmed : Bool
  startsAt : DateTime
  deriving DecidableEq, Repr

/-- Embeds `spec.GetTripActivitiesResponseInnerArray`: one activity entry of
the grouped activities response. -/
structure GetTripActivitiesResponseInnerArray where
  id : Nat
  occursAt : DateTime
  title : String
  deriving DecidableEq, Repr

/-- Embeds `spec.GetTripActivitiesResponseOuterArray`: one group of the
grouped activities response, keyed by the `date` field the handler fills. -/
structure GetTripActivitiesResponseOuterArray where
  date : DateTime
  activities : List GetTripActivitiesResponseInnerArray
  deriving DecidableEq, Repr

/-- Embeds `spec.GetTripParticipantsResponseArray`: one entry of the
participants listing. -/
structure GetTripParticipantsResponseArray where
  email : String
  id : Nat
  isConfirmed : Bool
  name : Option String
  deriving DecidableEq, Repr

/-- The tagged responses a handler can produce (each constructor stands for
one of the `spec.*Response` helpers the handlers call, carrying the HTTP
status in its name). `nilResponse` is the Go `nil` that PutTripsTripID
returns on success. -/
inductive Response where
  | error400 (message : String)
  | created201 (id : Nat)
  | noContent204
  | nilResponse
  | tripDetails200 (trip : GetTripDetailsResponseTripObj)
  | activities200 (groups : List GetTripActivitiesResponseOuterArray)
  | participants200 (participants : List GetTripParticipantsResponseArray)
  deriving DecidableEq, Repr

/-- Outcome of `uuid.Parse` on a path identifier: a well-formed UUID value,
or a malformed input. Go's `uuid.Parse` returns the zero UUID together with
the error, which `value` reflects. -/
inductive ParsedId where
  | ok (id : Nat)
  | malformed
  deriving DecidableEq, Repr

/-- The identifier value left in the variable after `uuid.Parse`: the parsed
value on success, the zero UUID on failure. -/
def ParsedId.value : ParsedId → Nat
  | .ok id => id
  | .malformed => 0

/-- One storage-gateway call, as named in the `store` interface. -/
inductive StoreCall where
  | getParticipant (id : Nat)
  | confirmParticipant (id : Nat)
  | getTrip (id : Nat)
  | updateTrip (prm : UpdateTripParams)
  | getTripActivities (id : Nat)
  | createActivity (prm : CreateActivityParams)
  | getParticipants (id : Nat)
  | getTripLinks (id : Nat)
  | createTripLink (prm : CreateTripLinkParams)
  deriving DecidableEq, Repr

/-- Modelled from the spec: the relational state behind the storage gateway
(`pgstore` is outside the handler source; the spec's data model lists the
four entity kinds). `nextId` feeds the generated identifiers of create
operations. -/
structure Store where
  trips : List Trip
  participants : List Participant
  activities : List Activity
  links : List Link
  nextId : Nat
  deriving DecidableEq, Repr

/-- Modelled from the spec: `GetTrip` reads the trip row with the given
identifier; `none` stands for the no-rows error. -/
def Store.GetTrip (s : Store) (id : Nat) : Option Trip :=
  s.trips.find? (fun t => t.id == id)

/-- Row-level effect of `UpdateTrip` on one trip row: rows with the matching
identifier receive the new destination, dates and confirmation flag. -/
def applyUpdateTrip (prm : UpdateTripParams) (t : Trip) : Trip :=
  if t.id == prm.id then
    { t with destination := prm.destination, startsAt := prm.startsAt,
             endsAt := prm.endsAt, isConfirmed := prm.isConfirmed }
  else t

/-- Modelled from the spec: `UpdateTrip` rewrites the row with the given
identifier with the supplied destination, dates and confirmation flag. -/
def Store.UpdateTrip (s : Store) (prm : UpdateTripParams) : Store :=
  { s with trips := s.trips.map (applyUpdateTrip prm) }

/-- Modelled from the spec: `GetParticipant` reads one participant row;
`none` stands for the no-rows error. -/
def Store.GetParticipant (s : Store) (id : Nat) : Option Participant :=
  s.participants.find? (fun p => p.id == id)

/-- Row-level effect of `ConfirmParticipant` on one participant row. -/
def applyConfirmParticipant (id : Nat) (p : Participant) : Participant :=
  if p.id == id then { p with isConfirmed := true } else p

/-- Modelled from the spec: `ConfirmParticipant` sets the confirmation flag
of the row with the given identifier. -/
def Store.ConfirmParticipant (s : Store) (id : Nat) : Store :=
  { s with participants := s.participants.map (applyConfirmParticipant id) }

/-- Modelled from the spec: `GetTripActivities` returns all activity rows of
the trip, in retrieval order (an empty result is not an error). -/
def Store.GetTripActivities (s : Store) (id : Nat) : List Activity :=
  s.activities.filter (fun a => a.tripId == id)

/-- Modelled from the spec: `CreateActivity` inserts a new activity row and
returns its generated identifier. -/
def Store.CreateActivity (s : Store) (prm : CreateActivityParams) :
    Nat × Store :=
  (s.nextId,
   { s with
     activities := s.activities ++
       [{ id := s.nextId, tripId := prm.tripId, title := prm.title,
          occursAt := prm.occursAt }],
     nextId := s.nextId + 1 })

/-- Modelled from the spec: `GetParticipants` returns all participant rows
of the trip. -/
def Store.GetParticipants (s : Store) (id : Nat) : List Participant :=
  s.participants.filter (fun p => p.tripId == id)

/-- Message text of the storage error for a link insert whose trip does not
exist (content immaterial to the claims). -/
def errForeignKey : String := "violates foreign key constraint"

/-- Modelled from the spec: `CreateTripLink` inserts a new link row and
returns its generated identifier; the storage layer enforces that every
Link references an existing Trip, so an insert with a dangling trip
reference fails. -/
def Store.CreateTripLink (s : Store) (prm : CreateTripLinkParams) :
    Except String (Nat × Store) :=
  match s.GetTrip prm.tripId with
  | none => .error errForeignKey
  | some _ =>
      .ok (s.nextId,
        { s with
          links := s.links ++
            [{ id := s.nextId, tripId := prm.tripId, title := prm.title,
               url := prm.url }],
          nextId := s.nextId + 1 })

/-- Result of running one handler: the response it returns, the store state
afterwards, and the ordered storage-gateway calls it made. -/
structure HResult where
  response : Response
  store : Store
  calls : List StoreCall
  deriving DecidableEq, Repr

/-- Message text of the underlying no-rows storage error (its content is
immaterial to every claim). -/
def errNoRows : String := "no rows in result set"

/-- Message text of a uuid parse error (content immaterial to the claims). -/
def errInvalidUuid : String := "invalid UUID"

/-- Embeds `PatchParticipantsParticipantIDConfirm`: parse the identifier,
read the participant, reject an already-confirmed one, otherwise write the
confirmation. -/
def PatchParticipantsParticipantIDConfirm (s : Store)
    (participantID : ParsedId) : HResult :=
  match participantID with
  | .malformed => ⟨.error400 "uuid invalido", s, []⟩
  | .ok id =>
    match s.GetParticipant id with
    | none =>
        ⟨.error400 "participant não encontrado", s, [.getParticipant id]⟩
    | some participant =>
        if participant.isConfirmed then
          ⟨.error400 "participant já confirmado", s, [.getParticipant id]⟩
        else
          ⟨.noContent204, s.ConfirmParticipant id,
           [.getParticipant id, .confirmParticipant id]⟩

/-- Embeds `PostTrips`. The outcomes of the external collaborators are
parameters: JSON decode result, validator result, `CreateTrip` result and
the mailer result. The mailer runs in a detached goroutine whose error is
only logged, so the response is computed without consulting it. -/
def PostTrips (decoded : Except String CreateTripRequest)
    (validation : Except String Unit)
    (createTripResult : Except String Nat)
    (_mailerResult : Except String Unit) : Response :=
  match decoded with
  | .error e => .error400 ("Invalid JSON: " ++ e)
  | .ok _ =>
    match validation with
    | .error e => .error400 ("invalid input: " ++ e)
    | .ok _ =>
      match createTripResult with
      | .error _ => .error400 "failed to create trip, try again"
      | .ok tripID => .created201 tripID

/-- Embeds `GetTripsTripID`: parse, read the trip, shape the projection. -/
def GetTripsTripID (s : Store) (tripID : ParsedId) : HResult :=
  match tripID with
  | .malformed => ⟨.error400 "uuid invalido", s, []⟩
  | .ok id =>
    match s.GetTrip id with
    | none =>
        ⟨.error400 "This trip dont exists, try again", s, [.getTrip id]⟩
    | some trip =>
        ⟨.tripDetails200
          { destination := trip.destination, endsAt := trip.endsAt,
            id := trip.id, isConfirmed := trip.isConfirmed,
            startsAt := trip.startsAt }, s, [.getTrip id]⟩

/-- Embeds `PutTripsTripID`: parse, decode, validate, read the trip, write
the update carrying the stored confirmation flag. Returns the Go `nil`
response on success. The storage write itself never fails in the model, so
the "Trip update failed" branch is not reachable here. -/
def PutTripsTripID (s : Store) (tripID : ParsedId)
    (decoded : Except String PutTripsTripIDJSONRequestBody)
    (validation : Except String Unit) : HResult :=
  match tripID with
  | .malformed => ⟨.error400 "uuid invalido", s, []⟩
  | .ok id =>
    match decoded with
    | .error e => ⟨.error400 ("Invalid JSON: " ++ e), s, []⟩
    | .ok body =>
      match validation with
      | .error e => ⟨.error400 ("invalid input: " ++ e), s, []⟩
      | .ok _ =>
        match s.GetTrip id with
        | none =>
            ⟨.error400 ("Trip not found to update: " ++ errNoRows), s,
             [.getTrip id]⟩
        | some trip =>
            let prm : UpdateTripParams :=
              { destination := body.destination, endsAt := body.endsAt,
                startsAt := body.startsAt, isConfirmed := trip.isConfirmed,
                id := trip.id }
            ⟨.nilResponse, s.UpdateTrip prm, [.getTrip id, .updateTrip prm]⟩

/-- Embeds the grouping loops of `GetTripsTripIDActivities` (the map keyed
by `activity.OccursAt.Time`, each key appending in retrieval order, then the
map flattened into the outer array). Go map iteration order is unspecified;
the embedding fixes first-insertion order, which leaves group membership and
group count unchanged. -/
def insertGrouped (gs : List GetTripActivitiesResponseOuterArray)
    (a : Activity) : List GetTripActivitiesResponseOuterArray :=
  match gs with
  | [] => [⟨a.occursAt, [⟨a.id, a.occursAt, a.title⟩]⟩]
  | g :: rest =>
      if g.date = a.occursAt then
        ⟨g.date, g.activities ++ [⟨a.id, a.occursAt, a.title⟩]⟩ :: rest
      else g :: insertGrouped rest a

/-- The grouped activities produced by `GetTripsTripIDActivities` from the
retrieved list: fold of the per-activity map insertion. -/
def groupActivities (acts : List Activity) :
    List GetTripActivitiesResponseOuterArray :=
  acts.foldl insertGrouped []

/-- The inner-array entry the handler builds for one activity. -/
def toInnerArray (a : Activity) : GetTripActivitiesResponseInnerArray :=
  ⟨a.id, a.occursAt, a.title⟩

/-- Embeds `GetTripsTripIDActivities`: parse, read the trip's activities,
group them. Retrieving an empty list is a success in the model, matching
multi-row reads that return no rows without error. -/
def GetTripsTripIDActivities (s : Store) (tripID : ParsedId) : HResult :=
  match tripID with
  | .malformed => ⟨.error400 "uuid invalido", s, []⟩
  | .ok id =>
      ⟨.activities200 (groupActivities (s.GetTripActivities id)), s,
       [.getTripActivities id]⟩

/-- Embeds `PostTripsTripIDActivities`: decode, parse, require the trip to
exist, validate, create the activity. The order mirrors the source (the
existence pre-check happens before validation). -/
def PostTripsTripIDActivities (s : Store)
    (decoded : Except String CreateActivityRequest) (tripID : ParsedId)
    (validation : Except String Unit) : HResult :=
  match decoded with
  | .error e => ⟨.error400 ("Invalid JSON: " ++ e), s, []⟩
  | .ok body =>
    match tripID with
    | .malformed => ⟨.error400 ("Invalid Id: " ++ errInvalidUuid), s, []⟩
    | .ok id =>
      match s.GetTrip id with
      | none =>
          ⟨.error400 "Somethind went wrong with this trip", s, [.getTrip id]⟩
      | some _ =>
        match validation with
        | .error e =>
            ⟨.error400 ("invalid input: " ++ e), s, [.getTrip id]⟩
        | .ok _ =>
          let prm : CreateActivityParams :=
            { tripId := id, title := body.title, occursAt := body.occursAt }
          let created := s.CreateActivity prm
          ⟨.created201 created.1, created.2, [.getTrip id, .createActivity prm]⟩

/-- Embeds `GetTripsTripIDConfirm`: parse, read the trip, rewrite it with
the confirmation flag forced to true and the other fields copied back. -/
def GetTripsTripIDConfirm (s : Store) (tripID : ParsedId) : HResult :=
  match tripID with
  | .malformed => ⟨.error400 "uuid invalido", s, []⟩
  | .ok id =>
    match s.GetTrip id with
    | none =>
        ⟨.error400 ("Trip to update not found: " ++ errNoRows), s,
         [.getTrip id]⟩
    | some trip =>
        let prm : UpdateTripParams :=
          { destination := trip.destination, endsAt := trip.endsAt,
            startsAt := trip.startsAt, isConfirmed := true, id := trip.id }
        ⟨.noContent204, s.UpdateTrip prm, [.getTrip id, .updateTrip prm]⟩

/-- Embeds `PostTripsTripIDLinks`. The JSON-decode failure branch and the
uuid-parse failure branch each build a 400 response but the source lacks a
`return` there, so the handler falls through: after a decode failure the
zero-value body is used, and after a parse failure the zero UUID is used. -/
def PostTripsTripIDLinks (s : Store)
    (decoded : Except String CreateLinkRequest) (tripID : ParsedId)
    (validation : Except String Unit) : HResult :=
  let body : CreateLinkRequest :=
    match decoded with
    | .ok b => b
    | .error _ => { title := "", url := "" }
  let id : Nat := tripID.value
  match validation with
  | .error e => ⟨.error400 ("invalid input: " ++ e), s, []⟩
  | .ok _ =>
    let prm : CreateTripLinkParams :=
      { tripId := id, title := body.title, url := body.url }
    match s.CreateTripLink prm with
    | .error e =>
        ⟨.error400 ("Failed to create link: " ++ e), s, [.createTripLink prm]⟩
    | .ok created =>
        ⟨.created201 created.1, created.2, [.createTripLink prm]⟩

/-- Embeds `GetTripsTripIDParticipants`: parse, read the participants, shape
each entry with the stored email, identifier and confirmation flag and the
name field set to the literal nil. -/
def GetTripsTripIDParticipants (s : Store) (tripID : ParsedId) : HResult :=
  match tripID with
  | .malformed => ⟨.error400 ("Trip id invalid: " ++ errInvalidUuid), s, []⟩
  | .ok id =>
      ⟨.participants200 ((s.GetParticipants id).map fun p =>
        { email := p.email, id := p.id, isConfirmed := p.isConfirmed,
          name := none }), s, [.getParticipants id]⟩

/-! ### Storage lemmas -/

theorem applyUpdateTrip_id (prm : UpdateTripParams) (t : Trip) :
    (applyUpdateTrip prm t).id = t.id := by
  unfold applyUpdateTrip; split <;> rfl

theorem find?_map_applyUpdateTrip (l : List Trip) (prm : UpdateTripParams)
    (id : Nat) :
    (l.map (applyUpdateTrip prm)).find? (fun t => t.id == id)
      = (l.find? (fun t => t.id == id)).map (applyUpdateTrip prm) := by
  induction l with
  | nil => rfl
  | cons t l ih =>
      simp only [List.map_cons, List.find?_cons, applyUpdateTrip_id]
      cases h : (t.id == id) <;> simp [h, ih]

theorem GetTrip_UpdateTrip (s : Store) (prm : UpdateTripParams) (id : Nat) :
    (s.UpdateTrip prm).GetTrip id
      = (s.GetTrip id).map (applyUpdateTrip prm) := by
  unfold Store.UpdateTrip Store.GetTrip
  exact find?_map_applyUpdateTrip s.trips prm id

theorem applyUpdateTrip_idem (prm : UpdateTripParams) (t : Trip) :
    applyUpdateTrip prm (applyUpdateTrip prm t) = applyUpdateTrip prm t := by
  unfold applyUpdateTrip
  by_cases h : (t.id == prm.id) = true <;> simp [h]

theorem UpdateTrip_idem (s : Store) (prm : UpdateTripParams) :
    (s.UpdateTrip prm).UpdateTrip prm = s.UpdateTrip prm := by
  unfold Store.UpdateTrip
  simp only [List.map_map]
  congr 1
  exact List.map_congr_left (fun t _ => applyUpdateTrip_idem prm t)

theorem applyConfirmParticipant_id (id : Nat) (p : Participant) :
    (applyConfirmParticipant id p).id = p.id := by
  unfold applyConfirmParticipant; split <;> rfl

theorem find?_map_applyConfirmParticipant (l : List Participant) (id j : Nat) :
    (l.map (applyConfirmParticipant id)).find? (fun p => p.id == j)
      = (l.find? (fun p => p.id == j)).map (applyConfirmParticipant id) := by
  induction l with
  | nil => rfl
  | cons p l ih =>
      simp only [List.map_cons, List.find?_cons, applyConfirmParticipant_id]
      cases h : (p.id == j) <;> simp [h, ih]

theorem GetParticipant_ConfirmParticipant (s : Store) (id j : Nat) :
    (s.ConfirmParticipant id).GetParticipant j
      = (s.GetParticipant j).map (applyConfirmParticipant id) := by
  unfold Store.ConfirmParticipant Store.GetParticipant
  exact find?_map_applyConfirmParticipant s.participants id j

/-! ### Claim theorems -/

/-- C10: for every well-formed trip identifier whose retrieved activity list
is empty, GetTripsTripIDActivities returns the 200 activities response with
zero groups, not an error. -/
theorem C10_empty_activities_success (s : Store) (id : Nat)
    (h : s.GetTripActivities id = []) :
    (GetTripsTripIDActivities s (.ok id)).response = .activities200 [] := by
  simp [GetTripsTripIDActivities, h, groupActivities]

/-- Store with one trip, one unconfirmed participant and no activities,
used by witnesses. -/
def witnessTrip : Trip :=
  { id := 1, destination := "Paris", ownerName := "Ana",
    ownerEmail := "ana@mail.test", startsAt := ⟨2024, 1, 1, 9, 0⟩,
    endsAt := ⟨2024, 1, 5, 18, 0⟩, isConfirmed := false }

/-- Participant row used by witnesses. -/
def witnessParticipant : Participant :=
  { id := 5, tripId := 1, email := "bea@mail.test", name := some "Bea",
    isConfirmed := false }

/-- Concrete store used by witnesses. -/
def witnessStore : Store :=
  { trips := [witnessTrip], participants := [witnessParticipant],
    activities := [], links := [], nextId := 9 }

/-- C10 witness: the theorem applied to the concrete store, whose trip 1 has
no activities. -/
theorem C10_empty_activities_success_witness :
    (GetTripsTripIDActivities witnessStore (.ok 1)).response
      = .activities200 [] :=
  C10_empty_activities_success witnessStore 1 (by decide)

/-- C9: for an existing trip, GetTripsTripID returns the 200 projection with
exactly the stored destination, dates and confirmation flag; a malformed
identifier or a missing trip each yield a 400 error response (there is no
distinct 404 shape). -/
theorem C9_get_trip_projection (s : Store) (id : Nat) :
    (∀ t, s.GetTrip id = some t →
        (GetTripsTripID s (.ok id)).response = .tripDetails200
          { destination := t.destination, endsAt := t.endsAt, id := t.id,
            isConfirmed := t.isConfirmed, startsAt := t.startsAt })
    ∧ (s.GetTrip id = none →
        (GetTripsTripID s (.ok id)).response
          = .error400 "This trip dont exists, try again")
    ∧ (GetTripsTripID s .malformed).response = .error400 "uuid invalido" := by
  refine ⟨fun t ht => ?_, fun hn => ?_, rfl⟩
  · simp [GetTripsTripID, ht]
  · simp [GetTripsTripID, hn]

/-- C9 witness: the theorem applied to the concrete store at the existing
trip 1, at the absent trip 42, and at a malformed identifier. -/
theorem C9_get_trip_projection_witness :
    (GetTripsTripID witnessStore (.ok 1)).response = .tripDetails200
      { destination := "Paris", endsAt := ⟨2024, 1, 5, 18, 0⟩, id := 1,
        isConfirmed := false, startsAt := ⟨2024, 1, 1, 9, 0⟩ }
    ∧ (GetTripsTripID witnessStore (.ok 42)).response
        = .error400 "This trip dont exists, try again"
    ∧ (GetTripsTripID witnessStore .malformed).response
        = .error400 "uuid invalido" :=
  ⟨(C9_get_trip_projection witnessStore 1).1 witnessTrip (by decide),
   (C9_get_trip_projection witnessStore 42).2.1 (by decide),
   (C9_get_trip_projection witnessStore 42).2.2⟩

/-- C7: PostTrips never consults the mailer outcome; whenever CreateTrip
succeeds the response is 201 with the generated trip identifier for every
mailer result, and each of JSON-decode failure, validation failure and
CreateTrip failure yields a 400 error with a message. -/
theorem C7_post_trips_mailer_independent :
    (∀ decoded validation createTripResult
       (m1 m2 : Except String Unit),
        PostTrips decoded validation createTripResult m1
          = PostTrips decoded validation createTripResult m2)
    ∧ (∀ (body : CreateTripRequest) (tripID : Nat) (m : Except String Unit),
        PostTrips (.ok body) (.ok ()) (.ok tripID) m = .created201 tripID)
    ∧ (∀ (e : String) validation createTripResult (m : Except String Unit),
        PostTrips (.error e) validation createTripResult m
          = .error400 ("Invalid JSON: " ++ e))
    ∧ (∀ (body : CreateTripRequest) (e : String) createTripResult
         (m : Except String Unit),
        PostTrips (.ok body) (.error e) createTripResult m
          = .error400 ("invalid input: " ++ e))
    ∧ (∀ (body : CreateTripRequest) (e : String) (m : Except String Unit),
        PostTrips (.ok body) (.ok ()) (.error e) m
          = .error400 "failed to create trip, try again") :=
  ⟨fun _ _ _ _ _ => rfl, fun _ _ _ => rfl, fun _ _ _ _ => rfl,
   fun _ _ _ _ => rfl, fun _ _ _ => rfl⟩

/-- C1: evaluation of PostTripsTripIDLinks at a malformed trip identifier
with a decodable, valid body: because the uuid-parse failure branch builds
its 400 response without returning it, the handler goes on to invoke
CreateTripLink with the zero UUID — a storage-gateway call the claim says
must not happen. The storage layer rejects the dangling trip reference, so
the caller receives the create-failure "Failed to create link" 400 rather
than the parse-failure "Invalid Id" 400 the claim describes. -/
theorem C1_links_malformed_id_attempts_create :
    (PostTripsTripIDLinks witnessStore (.ok ⟨"docs", "https://x.test"⟩)
        .malformed (.ok ())).calls
        = [.createTripLink ⟨0, "docs", "https://x.test"⟩]
    ∧ (PostTripsTripIDLinks witnessStore (.ok ⟨"docs", "https://x.test"⟩)
        .malformed (.ok ())).response
        = .error400 ("Failed to create link: " ++ errForeignKey)
    ∧ (PostTripsTripIDLinks witnessStore (.ok ⟨"docs", "https://x.test"⟩)
        .malformed (.ok ())).response
        ≠ .error400 ("Invalid Id: " ++ errInvalidUuid)
    ∧ (PostTripsTripIDLinks witnessStore (.ok ⟨"docs", "https://x.test"⟩)
        .malformed (.ok ())).store = witnessStore := by
  decide

/-- C3: a successful PutTripsTripID rewrites the trip with the payload's
destination and dates while the stored confirmation flag is read back and
written unchanged, for every update payload. -/
theorem C3_update_preserves_confirmation (s : Store) (id : Nat)
    (body : PutTripsTripIDJSONRequestBody) (t : Trip)
    (h : s.GetTrip id = some t) :
    (PutTripsTripID s (.ok id) (.ok body) (.ok ())).response = .nilResponse
    ∧ (PutTripsTripID s (.ok id) (.ok body) (.ok ())).store.GetTrip id
        = some { t with destination := body.destination,
                        startsAt := body.startsAt, endsAt := body.endsAt }
    ∧ ∀ t2, (PutTripsTripID s (.ok id) (.ok body) (.ok ())).store.GetTrip id
          = some t2 → t2.isConfirmed = t.isConfirmed := by
  have hid : (t.id == t.id) = true := by simp
  refine ⟨?_, ?_, ?_⟩
  · simp [PutTripsTripID, h]
  · simp only [PutTripsTripID, h]
    rw [GetTrip_UpdateTrip, h]
    simp [applyUpdateTrip, hid]
  · intro t2 ht2
    simp only [PutTripsTripID, h] at ht2
    rw [GetTrip_UpdateTrip, h] at ht2
    simp [applyUpdateTrip, hid] at ht2
    rw [← ht2]

/-- C3 witness: the theorem applied to the concrete store and a concrete
payload; the updated trip keeps the stored (false) confirmation flag. -/
theorem C3_update_preserves_confirmation_witness :
    (PutTripsTripID witnessStore (.ok 1)
        (.ok ⟨"Rome", ⟨2024, 2, 1, 8, 0⟩, ⟨2024, 2, 3, 20, 0⟩⟩)
        (.ok ())).response = .nilResponse
    ∧ (PutTripsTripID witnessStore (.ok 1)
        (.ok ⟨"Rome", ⟨2024, 2, 1, 8, 0⟩, ⟨2024, 2, 3, 20, 0⟩⟩)
        (.ok ())).store.GetTrip 1
        = some { witnessTrip with
                 destination := "Rome",
                 startsAt := ⟨2024, 2, 1, 8, 0⟩,
                 endsAt := ⟨2024, 2, 3, 20, 0⟩ }
    ∧ ∀ t2, (PutTripsTripID witnessStore (.ok 1)
        (.ok ⟨"Rome", ⟨2024, 2, 1, 8, 0⟩, ⟨2024, 2, 3, 20, 0⟩⟩)
        (.ok ())).store.GetTrip 1 = some t2
        → t2.isConfirmed = witnessTrip.isConfirmed :=
  C3_update_preserves_confirmation witnessStore 1
    ⟨"Rome", ⟨2024, 2, 1, 8, 0⟩, ⟨2024, 2, 3, 20, 0⟩⟩ witnessTrip (by decide)

/-- C5: for an existing trip, GetTripsTripIDConfirm answers 204 and rewrites
the trip with the confirmation flag forced true and destination and dates
unchanged; a second call on the now-confirmed trip answers the same 204 and
leaves the whole store unchanged (no error, unlike participant
confirmation). -/
theorem C5_confirm_trip_idempotent (s : Store) (id : Nat) (t : Trip)
    (h : s.GetTrip id = some t) :
    (GetTripsTripIDConfirm s (.ok id)).response = .noContent204
    ∧ (GetTripsTripIDConfirm s (.ok id)).store.GetTrip id
        = some { t with isConfirmed := true }
    ∧ (GetTripsTripIDConfirm
        (GetTripsTripIDConfirm s (.ok id)).store (.ok id)).response
        = .noContent204
    ∧ (GetTripsTripIDConfirm
        (GetTripsTripIDConfirm s (.ok id)).store (.ok id)).store
        = (GetTripsTripIDConfirm s (.ok id)).store := by
  have hid : (t.id == t.id) = true := by simp
  have hrun : GetTripsTripIDConfirm s (.ok id)
      = ⟨.noContent204,
         s.UpdateTrip ⟨t.destination, t.endsAt, t.startsAt, true, t.id⟩,
         [.getTrip id,
          .updateTrip ⟨t.destination, t.endsAt, t.startsAt, true, t.id⟩]⟩ := by
    simp [GetTripsTripIDConfirm, h]
  have hstep :
      (s.UpdateTrip ⟨t.destination, t.endsAt, t.startsAt, true, t.id⟩).GetTrip
        id = some { t with isConfirmed := true } := by
    rw [GetTrip_UpdateTrip, h]
    simp [applyUpdateTrip, hid]
  refine ⟨by rw [hrun], by rw [hrun]; exact hstep, ?_, ?_⟩
  · rw [hrun]
    simp [GetTripsTripIDConfirm, hstep]
  · rw [hrun]
    simp only [GetTripsTripIDConfirm, hstep]
    exact UpdateTrip_idem s _

/-- C5 witness: the theorem applied to the concrete store at trip 1. -/
theorem C5_confirm_trip_idempotent_witness :
    (GetTripsTripIDConfirm witnessStore (.ok 1)).response = .noContent204
    ∧ (GetTripsTripIDConfirm witnessStore (.ok 1)).store.GetTrip 1
        = some { witnessTrip with isConfirmed := true }
    ∧ (GetTripsTripIDConfirm
        (GetTripsTripIDConfirm witnessStore (.ok 1)).store (.ok 1)).response
        = .noContent204
    ∧ (GetTripsTripIDConfirm
        (GetTripsTripIDConfirm witnessStore (.ok 1)).store (.ok 1)).store
        = (GetTripsTripIDConfirm witnessStore (.ok 1)).store :=
  C5_confirm_trip_idempotent witnessStore 1 witnessTrip (by decide)

/-- C4: the first confirmation of an existing unconfirmed participant flips
the flag to true and answers 204; the second call answers the distinct
"already confirmed" 400 error, performs no ConfirmParticipant write and
leaves the store unchanged; malformed identifier, missing participant and
already-confirmed each produce a distinct message. -/
theorem C4_participant_confirm_once (s : Store) (id : Nat) (p : Participant)
    (h : s.GetParticipant id = some p) (hp : p.isConfirmed = false) :
    (PatchParticipantsParticipantIDConfirm s (.ok id)).response
      = .noContent204
    ∧ (PatchParticipantsParticipantIDConfirm s (.ok id)).store.GetParticipant
        id = some { p with isConfirmed := true }
    ∧ (PatchParticipantsParticipantIDConfirm
        (PatchParticipantsParticipantIDConfirm s (.ok id)).store
        (.ok id)).response = .error400 "participant já confirmado"
    ∧ (PatchParticipantsParticipantIDConfirm
        (PatchParticipantsParticipantIDConfirm s (.ok id)).store
        (.ok id)).store
        = (PatchParticipantsParticipantIDConfirm s (.ok id)).store
    ∧ (∀ j, StoreCall.confirmParticipant j ∉
        (PatchParticipantsParticipantIDConfirm
          (PatchParticipantsParticipantIDConfirm s (.ok id)).store
          (.ok id)).calls)
    ∧ (PatchParticipantsParticipantIDConfirm s .malformed).response
        = .error400 "uuid invalido"
    ∧ (∀ s2 j, Store.GetParticipant s2 j = none →
        (PatchParticipantsParticipantIDConfirm s2 (.ok j)).response
          = .error400 "participant não encontrado")
    ∧ ("uuid invalido" ≠ "participant não encontrado"
       ∧ "uuid invalido" ≠ "participant já confirmado"
       ∧ "participant não encontrado" ≠ "participant já confirmado") := by
  have hfind : s.participants.find? (fun q => q.id == id) = some p := h
  have hpid : (p.id == id) = true := by
    have h2 := List.find?_some hfind
    exact h2
  have hrun : PatchParticipantsParticipantIDConfirm s (.ok id)
      = ⟨.noContent204, s.ConfirmParticipant id,
         [.getParticipant id, .confirmParticipant id]⟩ := by
    simp [PatchParticipantsParticipantIDConfirm, h, hp]
  have hstep : (s.ConfirmParticipant id).GetParticipant id
      = some { p with isConfirmed := true } := by
    rw [GetParticipant_ConfirmParticipant, h]
    simp [applyConfirmParticipant, hpid]
  refine ⟨by rw [hrun], by rw [hrun]; exact hstep,
    ?_, ?_, ?_, rfl, fun s2 j hn => ?_, by decide⟩
  · rw [hrun]
    simp [PatchParticipantsParticipantIDConfirm, hstep]
  · rw [hrun]
    simp [PatchParticipantsParticipantIDConfirm, hstep]
  · intro j
    rw [hrun]
    simp [PatchParticipantsParticipantIDConfirm, hstep]
  · simp [PatchParticipantsParticipantIDConfirm, hn]

/-- C4 witness: the theorem applied to the concrete store at the unconfirmed
participant 5. -/
theorem C4_participant_confirm_once_witness :
    (PatchParticipantsParticipantIDConfirm witnessStore (.ok 5)).response
      = .noContent204
    ∧ (PatchParticipantsParticipantIDConfirm witnessStore
        (.ok 5)).store.GetParticipant 5
        = some { witnessParticipant with isConfirmed := true }
    ∧ (PatchParticipantsParticipantIDConfirm
        (PatchParticipantsParticipantIDConfirm witnessStore (.ok 5)).store
        (.ok 5)).response = .error400 "participant já confirmado"
    ∧ (PatchParticipantsParticipantIDConfirm
        (PatchParticipantsParticipantIDConfirm witnessStore (.ok 5)).store
        (.ok 5)).store
        = (PatchParticipantsParticipantIDConfirm witnessStore (.ok 5)).store
    ∧ (∀ j, StoreCall.confirmParticipant j ∉
        (PatchParticipantsParticipantIDConfirm
          (PatchParticipantsParticipantIDConfirm witnessStore (.ok 5)).store
          (.ok 5)).calls)
    ∧ (PatchParticipantsParticipantIDConfirm witnessStore
        .malformed).response = .error400 "uuid invalido"
    ∧ (∀ s2 j, Store.GetParticipant s2 j = none →
        (PatchParticipantsParticipantIDConfirm s2 (.ok j)).response
          = .error400 "participant não encontrado")
    ∧ ("uuid invalido" ≠ "participant não encontrado"
       ∧ "uuid invalido" ≠ "participant já confirmado"
       ∧ "participant não encontrado" ≠ "participant já confirmado") :=
  C4_participant_confirm_once witnessStore 5 witnessParticipant
    (by decide) (by decide)

/-- C6: PostTripsTripIDActivities with a well-formed identifier of a trip the
store does not hold answers a 400 error, changes nothing and never invokes
CreateActivity; with an existing trip, a decoded body and a passing
validation it answers 201 carrying the generated activity identifier. -/
theorem C6_activity_requires_existing_trip (s : Store) (id : Nat)
    (decoded : Except String CreateActivityRequest)
    (validation : Except String Unit) :
    (s.GetTrip id = none →
       (∃ msg, (PostTripsTripIDActivities s decoded (.ok id)
           validation).response = .error400 msg)
       ∧ (PostTripsTripIDActivities s decoded (.ok id) validation).store = s
       ∧ ∀ prm, StoreCall.createActivity prm ∉
           (PostTripsTripIDActivities s decoded (.ok id) validation).calls)
    ∧ (∀ body t, decoded = .ok body → validation = .ok () →
        s.GetTrip id = some t →
        (PostTripsTripIDActivities s decoded (.ok id) validation).response
          = .created201 s.nextId) := by
  constructor
  · intro hn
    match decoded with
    | .error e => exact ⟨⟨_, rfl⟩, rfl, by simp [PostTripsTripIDActivities]⟩
    | .ok body =>
        refine ⟨⟨"Somethind went wrong with this trip", ?_⟩, ?_, ?_⟩
        · simp [PostTripsTripIDActivities, hn]
        · simp [PostTripsTripIDActivities, hn]
        · intro prm
          simp [PostTripsTripIDActivities, hn]
  · intro body t hb hv ht
    subst hb; subst hv
    simp [PostTripsTripIDActivities, ht, Store.CreateActivity]

/-- C6 witness: the theorem applied at the absent trip 42 (error branch, no
write) and at the existing trip 1 (201 with the generated identifier 9). -/
theorem C6_activity_requires_existing_trip_witness :
    ((∃ msg, (PostTripsTripIDActivities witnessStore
        (.ok ⟨"museum", ⟨2024, 1, 2, 10, 0⟩⟩) (.ok 42)
        (.ok ())).response = .error400 msg)
      ∧ (PostTripsTripIDActivities witnessStore
          (.ok ⟨"museum", ⟨2024, 1, 2, 10, 0⟩⟩) (.ok 42)
          (.ok ())).store = witnessStore
      ∧ ∀ prm, StoreCall.createActivity prm ∉
          (PostTripsTripIDActivities witnessStore
            (.ok ⟨"museum", ⟨2024, 1, 2, 10, 0⟩⟩) (.ok 42)
            (.ok ())).calls)
    ∧ (PostTripsTripIDActivities witnessStore
        (.ok ⟨"museum", ⟨2024, 1, 2, 10, 0⟩⟩) (.ok 1)
        (.ok ())).response = .created201 9 :=
  ⟨(C6_activity_requires_existing_trip witnessStore 42
      (.ok ⟨"museum", ⟨2024, 1, 2, 10, 0⟩⟩) (.ok ())).1 (by decide),
   (C6_activity_requires_existing_trip witnessStore 1
      (.ok ⟨"museum", ⟨2024, 1, 2, 10, 0⟩⟩) (.ok ())).2
      ⟨"museum", ⟨2024, 1, 2, 10, 0⟩⟩ witnessTrip rfl rfl (by decide)⟩

/-- C8: GetTripsTripIDParticipants shapes each stored participant into an
entry carrying its email, identifier and confirmation flag with the name
field the literal nil, so every element of every returned listing has a null
name regardless of the stored name. -/
theorem C8_participants_name_always_null (s : Store) (id : Nat) :
    (GetTripsTripIDParticipants s (.ok id)).response
      = .participants200 ((s.GetParticipants id).map fun p =>
          { email := p.email, id := p.id, isConfirmed := p.isConfirmed,
            name := none })
    ∧ ∀ entries,
        (GetTripsTripIDParticipants s (.ok id)).response
          = .participants200 entries →
        ∀ o ∈ entries, o.name = none := by
  refine ⟨rfl, fun entries hres o ho => ?_⟩
  simp only [GetTripsTripIDParticipants, Response.participants200.injEq]
    at hres
  subst hres
  obtain ⟨p, -, rfl⟩ := List.mem_map.mp ho
  rfl

/-- C8 witness: the theorem applied to the concrete store, whose stored
participant has a non-null name yet is listed with a null name. -/
theorem C8_participants_name_always_null_witness :
    (GetTripsTripIDParticipants witnessStore (.ok 1)).response
      = .participants200 [{ email := "bea@mail.test",
                            id := 5,
                            isConfirmed := false,
                            name := none }]
    ∧ witnessParticipant.name = some "Bea" :=
  ⟨((C8_participants_name_always_null witnessStore 1).1).trans (by decide),
   by decide⟩

/-! ### Grouping lemmas for the activities response -/

/-- Two entries land in the same group of a grouped activities response. -/
def inSameGroup (gs : List GetTripActivitiesResponseOuterArray)
    (x y : GetTripActivitiesResponseInnerArray) : Prop :=
  ∃ g ∈ gs, x ∈ g.activities ∧ y ∈ g.activities

theorem insertGrouped_wf (a : Activity) :
    ∀ gs, (∀ g ∈ gs, ∀ x ∈ g.activities, x.occursAt = g.date) →
      ∀ g ∈ insertGrouped gs a, ∀ x ∈ g.activities, x.occursAt = g.date := by
  intro gs
  induction gs with
  | nil =>
      intro _ g hg x hx
      simp only [insertGrouped, List.mem_singleton] at hg
      subst hg
      simp only [List.mem_singleton] at hx
      subst hx
      rfl
  | cons g0 rest ih =>
      intro hw g hg x hx
      by_cases hd : g0.date = a.occursAt
      · rw [insertGrouped, if_pos hd] at hg
        rcases List.mem_cons.mp hg with h1 | h2
        · subst h1
          rcases List.mem_append.mp hx with hx1 | hx2
          · exact hw g0 (List.mem_cons_self g0 rest) x hx1
          · simp only [List.mem_singleton] at hx2
            subst hx2
            exact hd.symm
        · exact hw g (List.mem_cons_of_mem g0 h2) x hx
      · rw [insertGrouped, if_neg hd] at hg
        rcases List.mem_cons.mp hg with h1 | h2
        · subst h1
          exact hw g (List.mem_cons_self g rest) x hx
        · exact ih (fun g3 hg3 => hw g3 (List.mem_cons_of_mem g0 hg3)) g h2
            x hx

theorem insertGrouped_dates (a : Activity) :
    ∀ gs, (insertGrouped gs a).map (fun g => g.date)
      = if a.occursAt ∈ gs.map (fun g => g.date)
        then gs.map (fun g => g.date)
        else gs.map (fun g => g.date) ++ [a.occursAt] := by
  intro gs
  induction gs with
  | nil => simp [insertGrouped]
  | cons g0 rest ih =>
      simp only [List.map_cons]
      by_cases hd : g0.date = a.occursAt
      · rw [insertGrouped, if_pos hd,
            if_pos (List.mem_cons.mpr (Or.inl hd.symm))]
        simp
      · have hne : ¬ a.occursAt = g0.date := fun hh => hd hh.symm
        rw [insertGrouped, if_neg hd]
        simp only [List.map_cons, ih]
        by_cases hm : a.occursAt ∈ rest.map (fun g => g.date)
        · rw [if_pos hm, if_pos (List.mem_cons.mpr (Or.inr hm))]
        · have hnc : a.occursAt ∉ g0.date :: rest.map (fun g => g.date) := by
            simp only [List.mem_cons]
            rintro (hc | hc)
            · exact hne hc
            · exact hm hc
          rw [if_neg hm, if_neg hnc, List.cons_append]

theorem insertGrouped_nodup (a : Activity) (gs : _)
    (h : (gs.map (fun g => g.date)).Nodup) :
    ((insertGrouped gs a).map (fun g => g.date)).Nodup := by
  rw [insertGrouped_dates]
  by_cases hm : a.occursAt ∈ gs.map (fun g => g.date)
  · rwa [if_pos hm]
  · rw [if_neg hm]
    simp only [List.nodup_append, List.nodup_cons, List.not_mem_nil,
      not_false_iff, List.nodup_nil, and_true, true_and]
    exact ⟨h, by simpa [List.disjoint_singleton] using hm⟩

theorem insertGrouped_mem_mono (a : Activity) :
    ∀ gs, ∀ g ∈ gs, ∀ x ∈ g.activities,
      ∃ g2 ∈ insertGrouped gs a, g2.date = g.date ∧ x ∈ g2.activities := by
  intro gs
  induction gs with
  | nil => intro g hg; cases hg
  | cons g0 rest ih =>
      intro g hg x hx
      rcases List.mem_cons.mp hg with h1 | h2
      · subst h1
        by_cases hd : g.date = a.occursAt
        · refine ⟨⟨g.date, g.activities ++ [toInnerArray a]⟩, ?_, rfl, ?_⟩
          · rw [insertGrouped, if_pos hd]
            exact List.mem_cons_self _ _
          · exact List.mem_append_left _ hx
        · refine ⟨g, ?_, rfl, hx⟩
          rw [insertGrouped, if_neg hd]
          exact List.mem_cons_self _ _
      · by_cases hd : g0.date = a.occursAt
        · refine ⟨g, ?_, rfl, hx⟩
          rw [insertGrouped, if_pos hd]
          exact List.mem_cons_of_mem _ h2
        · obtain ⟨g2, hmem, hdate, hx2⟩ := ih g h2 x hx
          refine ⟨g2, ?_, hdate, hx2⟩
          rw [insertGrouped, if_neg hd]
          exact List.mem_cons_of_mem _ hmem

theorem insertGrouped_mem_self (a : Activity) :
    ∀ gs, ∃ g ∈ insertGrouped gs a,
      g.date = a.occursAt ∧ toInnerArray a ∈ g.activities := by
  intro gs
  induction gs with
  | nil =>
      exact ⟨⟨a.occursAt, [⟨a.id, a.occursAt, a.title⟩]⟩,
        List.mem_singleton.mpr rfl, rfl, List.mem_singleton.mpr rfl⟩
  | cons g0 rest ih =>
      by_cases hd : g0.date = a.occursAt
      · refine ⟨⟨g0.date, g0.activities ++ [toInnerArray a]⟩, ?_, hd, ?_⟩
        · rw [insertGrouped, if_pos hd]
          exact List.mem_cons_self _ _
        · exact List.mem_append_right _ (List.mem_singleton.mpr rfl)
      · obtain ⟨g2, hmem, hdate, hx⟩ := ih
        refine ⟨g2, ?_, hdate, hx⟩
        rw [insertGrouped, if_neg hd]
        exact List.mem_cons_of_mem _ hmem

theorem groupLoop_wf :
    ∀ (acts : List Activity) acc,
      (∀ g ∈ acc, ∀ x ∈ g.activities, x.occursAt = g.date) →
      ∀ g ∈ acts.foldl insertGrouped acc, ∀ x ∈ g.activities,
        x.occursAt = g.date := by
  intro acts
  induction acts with
  | nil => intro acc h; exact h
  | cons a rest ih =>
      intro acc h
      simp only [List.foldl_cons]
      exact ih (insertGrouped acc a) (insertGrouped_wf a acc h)

theorem groupLoop_nodup :
    ∀ (acts : List Activity) acc,
      ((acc.map (fun g => g.date)).Nodup) →
      ((acts.foldl insertGrouped acc).map (fun g => g.date)).Nodup := by
  intro acts
  induction acts with
  | nil => intro acc h; exact h
  | cons a rest ih =>
      intro acc h
      simp only [List.foldl_cons]
      exact ih (insertGrouped acc a) (insertGrouped_nodup a acc h)

theorem groupLoop_mem_mono :
    ∀ (acts : List Activity) acc, ∀ g ∈ acc, ∀ x ∈ g.activities,
      ∃ g2 ∈ acts.foldl insertGrouped acc,
        g2.date = g.date ∧ x ∈ g2.activities := by
  intro acts
  induction acts with
  | nil => intro acc g hg x hx; exact ⟨g, hg, rfl, hx⟩
  | cons a rest ih =>
      intro acc g hg x hx
      simp only [List.foldl_cons]
      obtain ⟨g1, hg1, hd1, hx1⟩ := insertGrouped_mem_mono a acc g hg x hx
      obtain ⟨g2, hg2, hd2, hx2⟩ := ih (insertGrouped acc a) g1 hg1 x hx1
      exact ⟨g2, hg2, hd2.trans hd1, hx2⟩

theorem groupLoop_mem :
    ∀ (acts : List Activity) acc, ∀ a ∈ acts,
      ∃ g ∈ acts.foldl insertGrouped acc,
        g.date = a.occursAt ∧ toInnerArray a ∈ g.activities := by
  intro acts
  induction acts with
  | nil => intro acc a ha; cases ha
  | cons b rest ih =>
      intro acc a ha
      simp only [List.foldl_cons]
      rcases List.mem_cons.mp ha with h1 | h2
      · subst h1
        obtain ⟨g1, hg1, hd1, hx1⟩ := insertGrouped_mem_self a acc
        obtain ⟨g2, hg2, hd2, hx2⟩ :=
          groupLoop_mem_mono rest (insertGrouped acc a) g1 hg1
            (toInnerArray a) hx1
        exact ⟨g2, hg2, hd2.trans hd1, hx2⟩
      · exact ih (insertGrouped acc b) a h2

theorem groups_date_inj :
    ∀ gs : List GetTripActivitiesResponseOuterArray,
      (gs.map (fun g => g.date)).Nodup →
      ∀ g1 ∈ gs, ∀ g2 ∈ gs, g1.date = g2.date → g1 = g2 := by
  intro gs
  induction gs with
  | nil => intro _ g1 h1; cases h1
  | cons g0 rest ih =>
      intro hn g1 h1 g2 h2 hd
      rw [List.map_cons, List.nodup_cons] at hn
      rcases List.mem_cons.mp h1 with e1 | m1
      · rcases List.mem_cons.mp h2 with e2 | m2
        · rw [e1, e2]
        · exfalso
          apply hn.1
          refine List.mem_map.mpr ⟨g2, m2, ?_⟩
          rw [← hd, e1]
      · rcases List.mem_cons.mp h2 with e2 | m2
        · exfalso
          apply hn.1
          refine List.mem_map.mpr ⟨g1, m1, ?_⟩
          rw [hd, e2]
        · exact ih hn.2 g1 m1 g2 m2 hd

/-- C2 (amended): GetTripsTripIDActivities groups by the full occurs-at
instant, not by its calendar-date portion: two retrieved activities land in
the same group of the response exactly when their occurs-at timestamps are
equal. -/
theorem C2_same_group_iff_equal_occurs_at (s : Store) (id : Nat)
    (a b : Activity) (ha : a ∈ s.GetTripActivities id)
    (hb : b ∈ s.GetTripActivities id)
    (gs : List GetTripActivitiesResponseOuterArray)
    (hgs : (GetTripsTripIDActivities s (.ok id)).response
      = .activities200 gs) :
    inSameGroup gs (toInnerArray a) (toInnerArray b)
      ↔ a.occursAt = b.occursAt := by
  have hgs2 : gs = (s.GetTripActivities id).foldl insertGrouped [] := by
    simp only [GetTripsTripIDActivities, Response.activities200.injEq,
      groupActivities] at hgs
    exact hgs.symm
  subst hgs2
  constructor
  · rintro ⟨g, hg, hx, hy⟩
    have hwf := groupLoop_wf (s.GetTripActivities id) []
      (by intro g3 hg3; cases hg3)
    have h1 : a.occursAt = g.date := hwf g hg (toInnerArray a) hx
    have h2 : b.occursAt = g.date := hwf g hg (toInnerArray b) hy
    rw [h1, h2]
  · intro heq
    obtain ⟨ga, hga, hda, hxa⟩ :=
      groupLoop_mem (s.GetTripActivities id) [] a ha
    obtain ⟨gb, hgb, hdb, hxb⟩ :=
      groupLoop_mem (s.GetTripActivities id) [] b hb
    have hnd := groupLoop_nodup (s.GetTripActivities id) [] (by simp)
    have hgg : ga = gb :=
      groups_date_inj _ hnd ga hga gb hgb (by rw [hda, hdb, heq])
    subst hgg
    exact ⟨ga, hga, hxa, hxb⟩

/-- Activities used by the C2 witness: two distinct activities at the same
instant. -/
def wActA : Activity := ⟨11, 1, "w1", ⟨2024, 3, 1, 10, 0⟩⟩

/-- Second activity of the C2 witness, same occurs-at as the first. -/
def wActB : Activity := ⟨12, 1, "w2", ⟨2024, 3, 1, 10, 0⟩⟩

/-- Store used by the C2 witness. -/
def wActStore : Store := ⟨[], [], [wActA, wActB], [], 13⟩

/-- C2 witness: the amended theorem applied to two concrete activities with
the same occurs-at instant, which therefore share a group. -/
theorem C2_same_group_iff_equal_occurs_at_witness :
    inSameGroup (groupActivities (wActStore.GetTripActivities 1))
      (toInnerArray wActA) (toInnerArray wActB) :=
  (C2_same_group_iff_equal_occurs_at wActStore 1 wActA wActB (by decide)
    (by decide) (groupActivities (wActStore.GetTripActivities 1))
    rfl).mpr (by decide)

/-- The three example activities of the claim: 2024-01-01T09:00,
2024-01-01T15:00 and 2024-01-02T10:00, all on trip 1. -/
def exampleActivities : List Activity :=
  [⟨1, 1, "a", ⟨2024, 1, 1, 9, 0⟩⟩, ⟨2, 1, "b", ⟨2024, 1, 1, 15, 0⟩⟩,
   ⟨3, 1, "c", ⟨2024, 1, 2, 10, 0⟩⟩]

/-- Store holding the claim's example activities. -/
def exampleStore : Store := ⟨[], [], exampleActivities, [], 4⟩

/-- Number of groups of an activities response. -/
def responseGroupCount : Response → Option Nat
  | .activities200 gs => some gs.length
  | _ => none

/-- C2 counterexample: on the claim's own example (activities at
2024-01-01T09:00, 2024-01-01T15:00 and 2024-01-02T10:00) the handler
produces three groups, not the claimed two, because the grouping key is the
full occurs-at instant rather than its calendar-date portion. -/
theorem C2_example_yields_three_groups :
    responseGroupCount
        ((GetTripsTripIDActivities exampleStore (.ok 1)).response) = some 3
    ∧ responseGroupCount
        ((GetTripsTripIDActivities exampleStore (.ok 1)).response)
        ≠ some 2 := by
  decide

end Journey
